import Mathlib

/-!
Shallow embedding of the Token Metrics trading-strategies backtesting framework
(src/trading_strategies.py) and proofs about its core accounting engine.

Numeric values are embedded as rationals; every decimal literal of the source
is exact in ℚ. Datetime values only decorate trade records and are embedded as
integer day stamps. Python dict lookups with a default, written
td.get(key, 0), are embedded as Option fields read through getD.
-/

namespace TokenMetrics

/-- Completed trade record built by TradingBacktester.add_trade
(src/trading_strategies.py lines 34-52). -/
structure Trade where
  symbol : String
  entry_price : ℚ
  exit_price : ℚ
  quantity : ℚ
  entry_date : Int
  exit_date : Int
  profit_loss : ℚ
  pnl_pct : ℚ
  strategy : String
deriving DecidableEq, Repr

/-- State of a TradingBacktester: the fields assigned in __init__
(lines 27-32). -/
structure TradingBacktester where
  initial_capital : ℚ
  current_capital : ℚ
  positions : List (String × ℚ)
  trades : List Trade
  portfolio_history : List ℚ
deriving DecidableEq, Repr

/-- Body of TradingBacktester.__init__ (lines 27-32): both capitals are set to
the argument and every container is empty. The Python constructor performs no
validation of initial_capital. -/
def TradingBacktester.construct (initial_capital : ℚ) : TradingBacktester :=
  ⟨initial_capital, initial_capital, [], [], []⟩

/-- Construction viewed through an error channel. The Python constructor body
contains no raise statement and no validation, so construction yields ok on
every input and never an error. -/
def TradingBacktester.init (initial_capital : ℚ) : Except String TradingBacktester :=
  Except.ok (TradingBacktester.construct initial_capital)

/-- TradingBacktester.add_trade (lines 34-52): computes profit_loss and
pnl_pct, builds the trade record, appends it to trades, adds profit_loss to
current_capital, and returns the trade. -/
def TradingBacktester.add_trade (s : TradingBacktester) (symbol : String)
    (entry_price exit_price quantity : ℚ) (entry_date exit_date : Int)
    (strategy : String) : Trade × TradingBacktester :=
  let profit_loss : ℚ := (exit_price - entry_price) * quantity
  let pnl_pct : ℚ := (exit_price - entry_price) / entry_price * 100
  let trade : Trade :=
    ⟨symbol, entry_price, exit_price, quantity, entry_date, exit_date,
     profit_loss, pnl_pct, strategy⟩
  (trade,
   ⟨s.initial_capital, s.current_capital + profit_loss, s.positions,
    s.trades ++ [trade], s.portfolio_history⟩)

/-- Profit factor as reported by calculate_metrics: a finite rational, or the
sentinel positive infinity produced by float(q(inf q)) when there are no
losing trades (line 72). -/
inductive PFValue where
  | val : ℚ → PFValue
  | posInf : PFValue
deriving DecidableEq, Repr

/-- The dictionary returned by calculate_metrics on a non-empty trade list
(lines 85-96). -/
structure Metrics where
  total_trades : Nat
  winning_trades : Nat
  losing_trades : Nat
  win_rate : ℚ
  total_return : ℚ
  avg_win : ℚ
  avg_loss : ℚ
  profit_factor : PFValue
  max_drawdown : ℚ
  final_capital : ℚ
deriving DecidableEq, Repr

/-- One iteration of the drawdown loop of calculate_metrics (lines 78-83).
The accumulator carries (max_drawdown, peak); the loop body computes
current_value = peak + profit_loss, raises peak when current_value exceeds it,
and takes the drawdown against the updated peak. -/
def ddStep (acc : ℚ × ℚ) (t : Trade) : ℚ × ℚ :=
  let peak := acc.2
  let current_value := peak + t.profit_loss
  let peak2 := if current_value > peak then current_value else peak
  let drawdown := (peak2 - current_value) / peak2 * 100
  (max acc.1 drawdown, peak2)

/-- The max_drawdown value computed by the loop of lines 74-83, starting from
max_drawdown = 0 and peak = initial_capital. -/
def maxDrawdownCalc (initial : ℚ) (trades : List Trade) : ℚ :=
  (trades.foldl ddStep (0, initial)).1

/-- The peak value carried by the same loop after scanning the given trades. -/
def ddPeak (initial : ℚ) (trades : List Trade) : ℚ :=
  (trades.foldl ddStep (0, initial)).2

/-- TradingBacktester.calculate_metrics (lines 54-96). An empty trade list
returns the empty dict, embedded as none. The method reads state and never
assigns to self, so the state component of the result is the input state. -/
def TradingBacktester.calculate_metrics (s : TradingBacktester) :
    Option Metrics × TradingBacktester :=
  if s.trades = [] then (none, s)
  else
    let total_trades := s.trades.length
    let winners := s.trades.filter (fun t => decide (t.profit_loss > 0))
    let losers := s.trades.filter (fun t => decide (t.profit_loss < 0))
    let winning_trades := winners.length
    let losing_trades := losers.length
    let win_rate : ℚ :=
      if total_trades > 0 then (winning_trades : ℚ) / (total_trades : ℚ) * 100 else 0
    let total_return : ℚ :=
      (s.current_capital - s.initial_capital) / s.initial_capital * 100
    let avg_win : ℚ :=
      if winning_trades > 0 then (winners.map Trade.pnl_pct).sum / (winning_trades : ℚ) else 0
    let avg_loss : ℚ :=
      if losing_trades > 0 then (losers.map Trade.pnl_pct).sum / (losing_trades : ℚ) else 0
    let profit_factor : PFValue :=
      if losing_trades > 0 then
        PFValue.val |(winners.map Trade.profit_loss).sum / (losers.map Trade.profit_loss).sum|
      else PFValue.posInf
    let max_drawdown := maxDrawdownCalc s.initial_capital s.trades
    (some ⟨total_trades, winning_trades, losing_trades, win_rate, total_return,
           avg_win, avg_loss, profit_factor, max_drawdown, s.current_capital⟩, s)

/-- An asset scoring snapshot handed to the strategies. The Python code reads
the fields with dict.get(key, default), so every field is optional. -/
structure TokenData where
  TOKEN_SYMBOL : Option String
  TM_TRADER_GRADE : Option ℚ
  HOLDING_RETURNS : Option ℚ
  TRADING_SIGNALS_RETURNS : Option ℚ
  TOKEN_TREND : Option ℚ
deriving DecidableEq, Repr

/-- Strategy label of SignalReversalStrategy (line 119). -/
def SignalReversalStrategy.label : String := "TM Signal-Driven Reversal"

/-- SignalReversalStrategy.evaluate_entry (lines 121-125). -/
def SignalReversalStrategy.evaluate_entry (td : TokenData) : Bool :=
  decide (td.TM_TRADER_GRADE.getD 0 ≥ 80) &&
  decide (td.HOLDING_RETURNS.getD 0 < 0.10) &&
  decide (td.TRADING_SIGNALS_RETURNS.getD 0 ≥ 1.00)

/-- SignalReversalStrategy.simulate_trade (lines 127-142): on acceptance the
quantity is current_capital at call time times the position size over the
entry price, and the trade is appended through add_trade; on rejection the
result is none and the state is untouched. The wall-clock instant used for the
synthetic dates is passed in as now. -/
def SignalReversalStrategy.simulate_trade (now : Int) (s : TradingBacktester)
    (td : TokenData) (entry_price exit_price position_size : ℚ) :
    Option Trade × TradingBacktester :=
  if SignalReversalStrategy.evaluate_entry td then
    let quantity := s.current_capital * position_size / entry_price
    let r := s.add_trade (td.TOKEN_SYMBOL.getD ("UNKNOWN")) entry_price exit_price
      quantity (now - 30) now SignalReversalStrategy.label
    (some r.1, r.2)
  else (none, s)

/-- Strategy label of LongTermHoldStrategy (line 166). -/
def LongTermHoldStrategy.label : String := "TM Grade & Long-Term Hold"

/-- LongTermHoldStrategy.evaluate_entry (lines 168-175). -/
def LongTermHoldStrategy.evaluate_entry (td : TokenData) : Bool :=
  let trading_returns := td.TRADING_SIGNALS_RETURNS.getD 0
  let holding_returns := td.HOLDING_RETURNS.getD 0
  decide (td.TM_TRADER_GRADE.getD 0 ≥ 88) &&
  decide (holding_returns ≥ 1.00) &&
  (decide (trading_returns < 0.5 * holding_returns) || decide (trading_returns < 0))

/-- LongTermHoldStrategy.simulate_trade (lines 177-192). -/
def LongTermHoldStrategy.simulate_trade (now : Int) (s : TradingBacktester)
    (td : TokenData) (entry_price exit_price position_size : ℚ) :
    Option Trade × TradingBacktester :=
  if LongTermHoldStrategy.evaluate_entry td then
    let quantity := s.current_capital * position_size / entry_price
    let r := s.add_trade (td.TOKEN_SYMBOL.getD ("UNKNOWN")) entry_price exit_price
      quantity (now - 180) now LongTermHoldStrategy.label
    (some r.1, r.2)
  else (none, s)

/-- Strategy label of TrendFollowingStrategy (line 217). -/
def TrendFollowingStrategy.label : String := "TM Trend-Aligned Signal Following"

/-- TrendFollowingStrategy.evaluate_entry (lines 219-227). -/
def TrendFollowingStrategy.evaluate_entry (td : TokenData) : Bool :=
  let trading_returns := td.TRADING_SIGNALS_RETURNS.getD 0
  let holding_returns := td.HOLDING_RETURNS.getD 0
  decide (td.TM_TRADER_GRADE.getD 0 ≥ 75) &&
  decide (td.TOKEN_TREND.getD 0 = 1) &&
  decide (trading_returns > holding_returns) &&
  decide (trading_returns > 0)

/-- TrendFollowingStrategy.simulate_trade (lines 229-244). -/
def TrendFollowingStrategy.simulate_trade (now : Int) (s : TradingBacktester)
    (td : TokenData) (entry_price exit_price position_size : ℚ) :
    Option Trade × TradingBacktester :=
  if TrendFollowingStrategy.evaluate_entry td then
    let quantity := s.current_capital * position_size / entry_price
    let r := s.add_trade (td.TOKEN_SYMBOL.getD ("UNKNOWN")) entry_price exit_price
      quantity (now - 14) now TrendFollowingStrategy.label
    (some r.1, r.2)
  else (none, s)

/-- REQ snapshot from the July 2025 sample data (line 265). -/
def reqToken : TokenData :=
  ⟨some ("REQ"), some 88.21, some 3.7339, some (-0.8131), some 1⟩

/-- CRV snapshot from the July 2025 sample data (line 266). -/
def crvToken : TokenData :=
  ⟨some ("CRV"), some 85, some (-0.9423), some 6.8534, some 1⟩

/-- ISLAND snapshot from the July 2025 sample data (line 268). -/
def islandToken : TokenData :=
  ⟨some ("ISLAND"), some 73.72, some (-0.8191), some (-0.0489), some 1⟩

/-- Arguments of one call to add_trade, used to talk about arbitrary
sequences of appends. -/
structure TradeInput where
  symbol : String
  entry_price : ℚ
  exit_price : ℚ
  quantity : ℚ
  entry_date : Int
  exit_date : Int
  strategy : String
deriving DecidableEq, Repr

/-- Applies a sequence of add_trade calls to a backtester state. -/
def applyTrades (s : TradingBacktester) (inputs : List TradeInput) : TradingBacktester :=
  inputs.foldl
    (fun st i =>
      (st.add_trade i.symbol i.entry_price i.exit_price i.quantity
        i.entry_date i.exit_date i.strategy).2) s

/-- Replaces every absent numeric field of a snapshot by an explicit zero,
the default used by dict.get in the strategy predicates. -/
def TokenData.withDefaults (td : TokenData) : TokenData :=
  ⟨td.TOKEN_SYMBOL, some (td.TM_TRADER_GRADE.getD 0), some (td.HOLDING_RETURNS.getD 0),
   some (td.TRADING_SIGNALS_RETURNS.getD 0), some (td.TOKEN_TREND.getD 0)⟩

/-- Modelled from the spec wording of the max-drawdown scan: sequential scan
in insertion order starting with peak = initialCapital; for each trade
currentValue = peak + profitLoss, peak becomes max(peak, currentValue),
drawdown = (peak - currentValue) / peak * 100, and the result is the maximum
drawdown observed over the scan. Kept as a separate definition so that the
code path maxDrawdownCalc can be compared against it. -/
def maxDrawdownSpecScan (initial : ℚ) (trades : List Trade) : ℚ :=
  (trades.foldl
    (fun acc t =>
      let current_value := acc.2 + t.profit_loss
      let peak := max acc.2 current_value
      let drawdown := (peak - current_value) / peak * 100
      (max acc.1 drawdown, peak)) (0, initial)).1

/-- Winning trade used as a concrete fixture: profit_loss 100. -/
def tradeW : Trade := ⟨("W"), 100, 120, 5, 0, 1, 100, 20, ("demo")⟩

/-- Losing trade used as a concrete fixture: profit_loss negative 50. -/
def tradeL : Trade := ⟨("L"), 100, 90, 5, 0, 1, -50, -10, ("demo")⟩

/-- Unfolding applyTrades over a cons cell. -/
theorem applyTrades_cons (s : TradingBacktester) (i : TradeInput) (is : List TradeInput) :
    applyTrades s (i :: is) =
      applyTrades (s.add_trade i.symbol i.entry_price i.exit_price i.quantity
        i.entry_date i.exit_date i.strategy).2 is := rfl

/-- One add_trade call preserves the capital-conservation invariant. -/
theorem capitalInv_add_trade (s : TradingBacktester) (sym : String) (e x q : ℚ)
    (d1 d2 : Int) (lbl : String)
    (h : s.current_capital = s.initial_capital + (s.trades.map Trade.profit_loss).sum) :
    ((s.add_trade sym e x q d1 d2 lbl).2).current_capital =
      ((s.add_trade sym e x q d1 d2 lbl).2).initial_capital +
        (((s.add_trade sym e x q d1 d2 lbl).2).trades.map Trade.profit_loss).sum := by
  simp [TradingBacktester.add_trade, h]
  ring

/-- Any sequence of add_trade calls preserves the capital-conservation
invariant. -/
theorem capitalInv_applyTrades (inputs : List TradeInput) :
    ∀ s : TradingBacktester,
      s.current_capital = s.initial_capital + (s.trades.map Trade.profit_loss).sum →
      (applyTrades s inputs).current_capital =
        (applyTrades s inputs).initial_capital +
          ((applyTrades s inputs).trades.map Trade.profit_loss).sum := by
  induction inputs with
  | nil => intro s h; simpa [applyTrades] using h
  | cons i is ih =>
      intro s h
      rw [applyTrades_cons]
      exact ih _ (capitalInv_add_trade s _ _ _ _ _ _ _ h)

/-- The initial capital is never changed by appending trades. -/
theorem applyTrades_initial (inputs : List TradeInput) :
    ∀ s : TradingBacktester, (applyTrades s inputs).initial_capital = s.initial_capital := by
  induction inputs with
  | nil => intro s; rfl
  | cons i is ih =>
      intro s
      rw [applyTrades_cons, ih]
      rfl

/-- Claim C1, counterexample: on the concrete empty ledger with initial
capital 10000, calculate_metrics does not produce a Metrics record with
zeroed totals and a sentinel profit factor, because the code returns the
empty dict (none) when the trade list is empty. -/
theorem C1_counterexample :
    ¬ ∃ m : Metrics,
      ((TradingBacktester.construct 10000).calculate_metrics).1 = some m ∧
      m.total_trades = 0 ∧ m.win_rate = 0 ∧ m.total_return = 0 ∧
      m.max_drawdown = 0 ∧ m.profit_factor = PFValue.posInf := by
  rintro ⟨m, hm, -, -, -, -, -⟩
  simp [TradingBacktester.calculate_metrics, TradingBacktester.construct] at hm

/-- Claim C1, amended: computing metrics on a ledger with zero trades returns
no Metrics record at all — the code returns the empty dict, embedded as
none — rather than a zeroed record with sentinel profit factor. -/
theorem C1_empty_ledger_metrics (s : TradingBacktester) (h : s.trades = []) :
    (s.calculate_metrics).1 = none := by
  simp [TradingBacktester.calculate_metrics, h]

/-- Witness for C1: a freshly constructed ledger has no trades and its
metrics value is none. -/
theorem C1_witness :
    (TradingBacktester.construct 10000).trades = [] ∧
    ((TradingBacktester.construct 10000).calculate_metrics).1 = none :=
  ⟨rfl, C1_empty_ledger_metrics (TradingBacktester.construct 10000) rfl⟩

/-- Claim C2, counterexample: constructing a backtester with initial capital
negative 5 does not fail with any error; it succeeds and produces a fully
initialized state, because the constructor performs no validation. -/
theorem C2_counterexample :
    TradingBacktester.init (-5) = Except.ok (TradingBacktester.construct (-5)) ∧
    ¬ ∃ e : String, TradingBacktester.init (-5) = Except.error e := by
  refine ⟨rfl, ?_⟩
  rintro ⟨e, he⟩
  simp [TradingBacktester.init] at he

/-- Claim C2, amended: construction succeeds for every initial capital,
including values at or below zero: no InvalidConfiguration check exists, and
the state always starts with currentCapital = initialCapital and an empty
trade sequence. -/
theorem C2_no_validation (c : ℚ) :
    TradingBacktester.init c = Except.ok (TradingBacktester.construct c) ∧
    (TradingBacktester.construct c).current_capital = c ∧
    (TradingBacktester.construct c).trades = [] :=
  ⟨rfl, rfl, rfl⟩

/-- Claim C6: the reversal policy accepts exactly when grade is at least 80,
holding return is below 0.10, and signals return is at least 1.00; the REQ
snapshot (grade 88.21, holding 3.7339, signals -0.8131) is rejected and the
CRV snapshot (grade 85, holding -0.9423, signals 6.8534) is accepted. -/
theorem C6_reversal_policy :
    (∀ td : TokenData,
      SignalReversalStrategy.evaluate_entry td = true ↔
        (td.TM_TRADER_GRADE.getD 0 ≥ 80 ∧ td.HOLDING_RETURNS.getD 0 < 0.10 ∧
         td.TRADING_SIGNALS_RETURNS.getD 0 ≥ 1.00)) ∧
    SignalReversalStrategy.evaluate_entry reqToken = false ∧
    SignalReversalStrategy.evaluate_entry crvToken = true := by
  refine ⟨?_, ?_, ?_⟩
  · intro td
    simp [SignalReversalStrategy.evaluate_entry, and_assoc]
  · norm_num [SignalReversalStrategy.evaluate_entry, reqToken]
  · norm_num [SignalReversalStrategy.evaluate_entry, crvToken]

/-- Claim C8: every strategy predicate is a total boolean function of the
snapshot, and a snapshot with absent fields is evaluated exactly as if each
absent field were present with value 0. -/
theorem C8_missing_fields_default (td : TokenData) :
    SignalReversalStrategy.evaluate_entry td =
      SignalReversalStrategy.evaluate_entry td.withDefaults ∧
    LongTermHoldStrategy.evaluate_entry td =
      LongTermHoldStrategy.evaluate_entry td.withDefaults ∧
    TrendFollowingStrategy.evaluate_entry td =
      TrendFollowingStrategy.evaluate_entry td.withDefaults := by
  refine ⟨?_, ?_, ?_⟩ <;>
    simp [SignalReversalStrategy.evaluate_entry, LongTermHoldStrategy.evaluate_entry,
      TrendFollowingStrategy.evaluate_entry, TokenData.withDefaults]

/-- Claim C9: for a snapshot the strategy predicate rejects, simulate_trade
returns none and the backtester state is exactly the input state: no capital
change and no appended trade, for each of the three strategies. -/
theorem C9_rejection_leaves_state (now : Int) (s : TradingBacktester) (td : TokenData)
    (e x f : ℚ) :
    (SignalReversalStrategy.evaluate_entry td = false →
      SignalReversalStrategy.simulate_trade now s td e x f = (none, s)) ∧
    (LongTermHoldStrategy.evaluate_entry td = false →
      LongTermHoldStrategy.simulate_trade now s td e x f = (none, s)) ∧
    (TrendFollowingStrategy.evaluate_entry td = false →
      TrendFollowingStrategy.simulate_trade now s td e x f = (none, s)) := by
  refine ⟨fun h => ?_, fun h => ?_, fun h => ?_⟩ <;>
    simp [SignalReversalStrategy.simulate_trade, LongTermHoldStrategy.simulate_trade,
      TrendFollowingStrategy.simulate_trade, h]

/-- Witness for C9: the ISLAND snapshot is rejected by all three strategies
and the corresponding simulate_trade calls return none with the state
untouched. -/
theorem C9_witness :
    SignalReversalStrategy.evaluate_entry islandToken = false ∧
    LongTermHoldStrategy.evaluate_entry islandToken = false ∧
    TrendFollowingStrategy.evaluate_entry islandToken = false ∧
    SignalReversalStrategy.simulate_trade 0 (TradingBacktester.construct 10000)
      islandToken 100 50 0.05 = (none, TradingBacktester.construct 10000) ∧
    LongTermHoldStrategy.simulate_trade 0 (TradingBacktester.construct 10000)
      islandToken 100 50 0.15 = (none, TradingBacktester.construct 10000) ∧
    TrendFollowingStrategy.simulate_trade 0 (TradingBacktester.construct 10000)
      islandToken 100 50 0.08 = (none, TradingBacktester.construct 10000) := by
  have h1 : SignalReversalStrategy.evaluate_entry islandToken = false := by
    norm_num [SignalReversalStrategy.evaluate_entry, islandToken]
  have h2 : LongTermHoldStrategy.evaluate_entry islandToken = false := by
    norm_num [LongTermHoldStrategy.evaluate_entry, islandToken]
  have h3 : TrendFollowingStrategy.evaluate_entry islandToken = false := by
    norm_num [TrendFollowingStrategy.evaluate_entry, islandToken]
  exact ⟨h1, h2, h3,
    (C9_rejection_leaves_state 0 (TradingBacktester.construct 10000) islandToken 100 50 0.05).1 h1,
    (C9_rejection_leaves_state 0 (TradingBacktester.construct 10000) islandToken 100 50 0.15).2.1 h2,
    (C9_rejection_leaves_state 0 (TradingBacktester.construct 10000) islandToken 100 50 0.08).2.2 h3⟩

/-- Claim C10: add_trade keeps the initial capital, every previously appended
trade, the positions map and the portfolio history unchanged, extends the
trade sequence by exactly the returned trade, and moves current capital by
exactly the profit of that trade; calculate_metrics leaves the whole state
unchanged, so computing metrics twice in a row yields identical results. -/
theorem C10_frame_conditions (s : TradingBacktester) (sym : String) (e x q : ℚ)
    (d1 d2 : Int) (lbl : String) :
    ((s.add_trade sym e x q d1 d2 lbl).2).initial_capital = s.initial_capital ∧
    ((s.add_trade sym e x q d1 d2 lbl).2).trades =
      s.trades ++ [(s.add_trade sym e x q d1 d2 lbl).1] ∧
    ((s.add_trade sym e x q d1 d2 lbl).2).current_capital =
      s.current_capital + ((s.add_trade sym e x q d1 d2 lbl).1).profit_loss ∧
    ((s.add_trade sym e x q d1 d2 lbl).2).positions = s.positions ∧
    ((s.add_trade sym e x q d1 d2 lbl).2).portfolio_history = s.portfolio_history ∧
    (s.calculate_metrics).2 = s ∧
    ((s.calculate_metrics).2.calculate_metrics).1 = (s.calculate_metrics).1 := by
  have hsnd : (s.calculate_metrics).2 = s := by
    by_cases h : s.trades = [] <;> simp [TradingBacktester.calculate_metrics, h]
  exact ⟨rfl, rfl, rfl, rfl, rfl, hsnd, by rw [hsnd]⟩

/-- Claim C3: starting from a fresh backtester with initial capital c, after
every append — that is, after any prefix of any sequence of add_trade
calls — the current capital equals c plus the sum of profit_loss over all
trades recorded so far. -/
theorem C3_capital_conservation (c : ℚ) (inputs : List TradeInput) (k : Nat) :
    (applyTrades (TradingBacktester.construct c) (inputs.take k)).current_capital =
      c + ((applyTrades (TradingBacktester.construct c) (inputs.take k)).trades.map
        Trade.profit_loss).sum := by
  have h := capitalInv_applyTrades (inputs.take k) (TradingBacktester.construct c)
    (by simp [TradingBacktester.construct])
  simpa [applyTrades_initial, TradingBacktester.construct] using h

/-- Claim C4: the reversal strategy sizes each accepted trade from the
current ledger capital at the moment of the call: simulating two accepted
trades in sequence, the second quantity equals the post-first-trade capital
times the sizing fraction over the entry price, and the post-first-trade
capital has moved by the first profit. -/
theorem C4_sizing_uses_live_capital (now1 now2 : Int) (s : TradingBacktester)
    (td1 td2 : TokenData) (e1 x1 e2 x2 f1 f2 : ℚ)
    (h1 : SignalReversalStrategy.evaluate_entry td1 = true)
    (h2 : SignalReversalStrategy.evaluate_entry td2 = true) :
    ∃ t2 : Trade,
      (SignalReversalStrategy.simulate_trade now2
          (SignalReversalStrategy.simulate_trade now1 s td1 e1 x1 f1).2 td2 e2 x2 f2).1 =
        some t2 ∧
      t2.quantity =
        (SignalReversalStrategy.simulate_trade now1 s td1 e1 x1 f1).2.current_capital
          * f2 / e2 ∧
      (SignalReversalStrategy.simulate_trade now1 s td1 e1 x1 f1).2.current_capital =
        s.current_capital + (x1 - e1) * (s.current_capital * f1 / e1) := by
  simp only [SignalReversalStrategy.simulate_trade, h1, h2, if_true]
  exact ⟨_, rfl, rfl, rfl⟩

/-- Witness for C4: two consecutive accepted CRV trades at entry 100, exit
785.34 and fraction 0.05 starting from capital 10000. -/
theorem C4_witness :
    SignalReversalStrategy.evaluate_entry crvToken = true ∧
    ∃ t2 : Trade,
      (SignalReversalStrategy.simulate_trade 0
          (SignalReversalStrategy.simulate_trade 0 (TradingBacktester.construct 10000)
            crvToken 100 785.34 0.05).2 crvToken 100 785.34 0.05).1 = some t2 ∧
      t2.quantity =
        (SignalReversalStrategy.simulate_trade 0 (TradingBacktester.construct 10000)
          crvToken 100 785.34 0.05).2.current_capital * 0.05 / 100 ∧
      (SignalReversalStrategy.simulate_trade 0 (TradingBacktester.construct 10000)
          crvToken 100 785.34 0.05).2.current_capital =
        (TradingBacktester.construct 10000).current_capital +
          (785.34 - 100) * ((TradingBacktester.construct 10000).current_capital * 0.05 / 100) := by
  have hc : SignalReversalStrategy.evaluate_entry crvToken = true := by
    norm_num [SignalReversalStrategy.evaluate_entry, crvToken]
  exact ⟨hc, C4_sizing_uses_live_capital 0 0 (TradingBacktester.construct 10000)
    crvToken crvToken 100 785.34 100 785.34 0.05 0.05 hc hc⟩

/-- The loop body of the drawdown scan written with max in place of the
conditional peak update. -/
theorem ddStep_ite_max (acc : ℚ × ℚ) (t : Trade) :
    ddStep acc t =
      (max acc.1 ((max acc.2 (acc.2 + t.profit_loss) - (acc.2 + t.profit_loss)) /
        max acc.2 (acc.2 + t.profit_loss) * 100), max acc.2 (acc.2 + t.profit_loss)) := by
  unfold ddStep
  rcases le_or_lt (acc.2 + t.profit_loss) acc.2 with h | h
  · simp [not_lt.mpr h, max_eq_left h]
  · simp [h, max_eq_right h.le]

/-- The code loop and the spec-worded scan compute the same fold. -/
theorem ddFold_eq_spec (trades : List Trade) : ∀ acc : ℚ × ℚ,
    trades.foldl ddStep acc =
      trades.foldl
        (fun acc t =>
          let current_value := acc.2 + t.profit_loss
          let peak := max acc.2 current_value
          let drawdown := (peak - current_value) / peak * 100
          (max acc.1 drawdown, peak)) acc := by
  induction trades with
  | nil => intro acc; rfl
  | cons t ts ih =>
      intro acc
      simp only [List.foldl_cons]
      rw [ddStep_ite_max]
      exact ih _

/-- The max_drawdown of the code loop agrees with the spec-worded scan. -/
theorem maxDrawdownCalc_eq_spec (initial : ℚ) (trades : List Trade) :
    maxDrawdownCalc initial trades = maxDrawdownSpecScan initial trades := by
  unfold maxDrawdownCalc maxDrawdownSpecScan
  rw [ddFold_eq_spec]

/-- The accumulated max drawdown only grows when one more trade is scanned. -/
theorem maxDrawdownCalc_append_le (initial : ℚ) (ts : List Trade) (t : Trade) :
    maxDrawdownCalc initial ts ≤ maxDrawdownCalc initial (ts ++ [t]) := by
  unfold maxDrawdownCalc
  rw [List.foldl_append]
  simp only [List.foldl_cons, List.foldl_nil]
  rw [ddStep_ite_max]
  exact le_max_left _ _

/-- The peak carried by the scan stays positive when it starts positive. -/
theorem ddFold_peak_pos (ts : List Trade) :
    ∀ acc : ℚ × ℚ, 0 < acc.2 → 0 < (ts.foldl ddStep acc).2 := by
  induction ts with
  | nil => intro acc h; simpa using h
  | cons t ts ih =>
      intro acc h
      simp only [List.foldl_cons]
      apply ih
      rw [ddStep_ite_max]
      exact lt_max_of_lt_left h

/-- The peak after scanning any trade list from a positive initial capital is
positive. -/
theorem ddPeak_pos (initial : ℚ) (h : 0 < initial) (ts : List Trade) :
    0 < ddPeak initial ts :=
  ddFold_peak_pos ts (0, initial) h

/-- A losing trade appended after the scan contributes a drawdown of exactly
its loss relative to the prevailing peak, and the final max drawdown is at
least that value. -/
theorem maxDrawdownCalc_append_loss (initial : ℚ) (ts : List Trade) (t : Trade)
    (hl : t.profit_loss < 0) :
    -t.profit_loss / ddPeak initial ts * 100 ≤ maxDrawdownCalc initial (ts ++ [t]) := by
  unfold maxDrawdownCalc
  rw [List.foldl_append]
  simp only [List.foldl_cons, List.foldl_nil]
  rw [ddStep_ite_max]
  have hpk : (List.foldl ddStep (0, initial) ts).2 = ddPeak initial ts := rfl
  rw [hpk]
  have hmax : max (ddPeak initial ts) (ddPeak initial ts + t.profit_loss) =
      ddPeak initial ts := max_eq_left (by linarith)
  rw [hmax]
  have hsub : ddPeak initial ts - (ddPeak initial ts + t.profit_loss) = -t.profit_loss := by
    ring
  rw [hsub]
  exact le_max_right _ _

/-- Claim C5: the max drawdown reported by calculate_metrics is exactly the
spec-worded sequential scan starting at peak = initialCapital; the scanned
maximum is non-decreasing as trades are consumed in insertion order; and a
single losing trade arriving after a peak contributes a strictly positive
drawdown equal to its loss relative to that peak, which the final value
dominates. -/
theorem C5_drawdown_scan :
    (∀ (s : TradingBacktester) (m : Metrics), (s.calculate_metrics).1 = some m →
      m.max_drawdown = maxDrawdownSpecScan s.initial_capital s.trades) ∧
    (∀ (initial : ℚ) (ts : List Trade) (t : Trade),
      maxDrawdownCalc initial ts ≤ maxDrawdownCalc initial (ts ++ [t])) ∧
    (∀ (initial : ℚ) (ts : List Trade) (t : Trade), 0 < initial → t.profit_loss < 0 →
      0 < -t.profit_loss / ddPeak initial ts * 100 ∧
      -t.profit_loss / ddPeak initial ts * 100 ≤ maxDrawdownCalc initial (ts ++ [t])) := by
  refine ⟨?_, ?_, ?_⟩
  · intro s m hm
    by_cases h : s.trades = []
    · simp [TradingBacktester.calculate_metrics, h] at hm
    · simp only [TradingBacktester.calculate_metrics, h, if_false, if_neg,
        Option.some.injEq] at hm
      rw [← hm]
      exact maxDrawdownCalc_eq_spec s.initial_capital s.trades
  · intro initial ts t
    exact maxDrawdownCalc_append_le initial ts t
  · intro initial ts t hi hl
    refine ⟨?_, maxDrawdownCalc_append_loss initial ts t hl⟩
    have hp : 0 < ddPeak initial ts := ddPeak_pos initial hi ts
    have hn : 0 < -t.profit_loss := by linarith
    positivity

/-- Witness for C5: a winning trade followed by a losing trade from initial
capital 1000 realizes the monotonicity and the positive-drawdown bound. -/
theorem C5_witness :
    (0:ℚ) < 1000 ∧ tradeL.profit_loss < 0 ∧
    maxDrawdownCalc 1000 [tradeW] ≤ maxDrawdownCalc 1000 ([tradeW] ++ [tradeL]) ∧
    0 < -tradeL.profit_loss / ddPeak 1000 [tradeW] * 100 ∧
    -tradeL.profit_loss / ddPeak 1000 [tradeW] * 100 ≤
      maxDrawdownCalc 1000 ([tradeW] ++ [tradeL]) := by
  have hl : tradeL.profit_loss < 0 := by norm_num [tradeL]
  have h3 := C5_drawdown_scan.2.2 1000 [tradeW] tradeL (by norm_num) hl
  exact ⟨by norm_num, hl, C5_drawdown_scan.2.1 1000 [tradeW] tradeL, h3.1, h3.2⟩

/-- Claim C7: a trade with zero profit is counted by calculate_metrics in
totalTrades but in neither winningTrades nor losingTrades, and the win rate
divides the winning count by the full total including that trade. -/
theorem C7_zero_profit_neutral (s : TradingBacktester) (sym : String) (p q : ℚ)
    (d1 d2 : Int) (lbl : String) (m : Metrics)
    (hm : (((s.add_trade sym p p q d1 d2 lbl).2).calculate_metrics).1 = some m) :
    (s.add_trade sym p p q d1 d2 lbl).1.profit_loss = 0 ∧
    m.total_trades = s.trades.length + 1 ∧
    m.winning_trades = (s.trades.filter (fun t => decide (t.profit_loss > 0))).length ∧
    m.losing_trades = (s.trades.filter (fun t => decide (t.profit_loss < 0))).length ∧
    m.win_rate = (m.winning_trades : ℚ) / (m.total_trades : ℚ) * 100 := by
  have hne : ((s.add_trade sym p p q d1 d2 lbl).2).trades ≠ [] := by
    simp [TradingBacktester.add_trade]
  simp only [TradingBacktester.calculate_metrics, hne, if_false, if_neg,
    Option.some.injEq] at hm
  rw [← hm]
  simp [TradingBacktester.add_trade, List.filter_append, List.length_append]

/-- Witness for C7: appending a zero-profit trade (entry = exit = 100) to a
fresh ledger with capital 10000 yields one total trade, no winner, no loser
and win rate 0. -/
theorem C7_witness :
    ((((TradingBacktester.construct 10000).add_trade ("Z") 100 100 5 0 1
        ("demo")).2).calculate_metrics).1 =
      some ⟨1, 0, 0, 0, 0, 0, 0, PFValue.posInf, 0, 10000⟩ ∧
    (((TradingBacktester.construct 10000).add_trade ("Z") 100 100 5 0 1
        ("demo")).1.profit_loss = 0 ∧
      (1:Nat) = (TradingBacktester.construct 10000).trades.length + 1 ∧
      (0:Nat) = ((TradingBacktester.construct 10000).trades.filter
        (fun t => decide (t.profit_loss > 0))).length ∧
      (0:Nat) = ((TradingBacktester.construct 10000).trades.filter
        (fun t => decide (t.profit_loss < 0))).length ∧
      (0:ℚ) = ((0:Nat) : ℚ) / ((1:Nat) : ℚ) * 100) := by
  have hm :
      ((((TradingBacktester.construct 10000).add_trade ("Z") 100 100 5 0 1
          ("demo")).2).calculate_metrics).1 =
        some ⟨1, 0, 0, 0, 0, 0, 0, PFValue.posInf, 0, 10000⟩ := by
    simp [TradingBacktester.calculate_metrics, TradingBacktester.construct,
      TradingBacktester.add_trade, maxDrawdownCalc, ddStep]
  exact ⟨hm, C7_zero_profit_neutral (TradingBacktester.construct 10000)
    ("Z") 100 5 0 1 ("demo") ⟨1, 0, 0, 0, 0, 0, 0, PFValue.posInf, 0, 10000⟩ hm⟩

end TokenMetrics
